import Mathlib

/-!
Shallow embedding of `src/containers.py` (rest-container): the Docker and
Kubernetes lifecycle managers, their backend state, and the result shapes
they return.  Backend clients (Docker daemon, Kubernetes API server) are
modelled as explicit state records; a `clientOk : Bool` argument models
whether the class-level client handle was resolved for the current runtime
environment (`cls.client is not None`).  Python exceptions are modelled as
`Except CErr`; lifecycle calls return their result together with the
backend state after the call (backend mutations survive a raised
exception, as they do against a real daemon / API server).
-/

deriving instance DecidableEq for Except

namespace RestContainer

/-- Python `str.split(sep)` for a one-character separator, computed over
the string's character list (so that proofs can evaluate it). -/
def splitOnCharAux (sep : Char) : List Char → List Char → List String
| [], acc => [String.mk acc.reverse]
| c :: rest, acc =>
  if c = sep then String.mk acc.reverse :: splitOnCharAux sep rest []
  else splitOnCharAux sep rest (c :: acc)

/-- Python `str.split(sep)` (single-character separator). -/
def splitOnChar (sep : Char) (s : String) : List String := splitOnCharAux sep s.data []

/-- The numeric value of an ASCII digit. -/
def digitVal? (c : Char) : Option Nat :=
  if 48 ≤ c.toNat ∧ c.toNat ≤ 57 then some (c.toNat - 48) else none

/-- Accumulate decimal digits; `none` at the first non-digit. -/
def parseNatAux : List Char → Nat → Option Nat
| [], acc => some acc
| c :: rest, acc =>
  match digitVal? c with
  | some d => parseNatAux rest (acc * 10 + d)
  | none => none

/-- Python `int(s)` for the non-negative decimal literals this code feeds
it (port numbers); `none` models the `ValueError` on anything else. -/
def pyInt? (s : String) : Option Nat :=
  match s.data with
  | [] => none
  | l => parseNatAux l 0

/-- Python `str.upper()`. -/
def pyUpper (s : String) : String := String.mk (s.data.map Char.toUpper)

/-- A dynamically-typed `container_port` value: Python `None`, an `int`,
or a `str` (the buggy Docker create path puts a string slice of the key
there). -/
inductive PValue
| nil
| int (n : Int)
| str (s : String)
deriving DecidableEq, Repr

/-- One entry of the list returned by `create_container`. -/
structure CreateEntry where
  container_id : String
  container_network : String
  container_port : PValue
deriving DecidableEq, Repr

/-- One entry of the list returned by `start_container`. -/
structure StartEntry where
  container_id : String
  container_ip : String
deriving DecidableEq, Repr

/-- One entry of the list returned by `stop_container` / `delete_container`. -/
structure OpEntry where
  container_id : String
  container_network : String
  status : String
deriving DecidableEq, Repr

/-- The exceptions that can arise in a lifecycle call, mirroring
`src/exceptions.py` plus the transport / interpreter errors:
`docker.errors.DockerException`, `kubernetes.client.rest.ApiException`,
Python `ValueError`, `AttributeError` and `NameError` (as `pyError`).
The code also names an `exceptions.ContainerClientNotResolved` class in
raises and handlers, but `src/exceptions.py` defines no such class, so no
value of that kind can ever be produced — every such reference itself
fails with an `AttributeError`.  Errors are modelled by the exception
raised in the method body; the methods' `except` chains re-raise and so
preserve this identity (except that the broken
`except exceptions.ContainerClientNotResolved` clauses turn anything that
reaches them into an `AttributeError`, which the embedding abstracts by
keeping the in-body exception). -/
inductive CErr
| dockerError (msg : String)
| apiError (msg : String)
| valueError (msg : String)
| ipUnresolved (msg : String)
| pyError (msg : String)
deriving DecidableEq, Repr

/-- Boolean view of an `Except` outcome. -/
def isErr {α : Type} : Except CErr α → Bool
| .error _ => true
| .ok _ => false

/-- Message of the `AttributeError` raised when `check_client` attempts
`raise exceptions.ContainerClientNotResolved(...)`: `src/exceptions.py`
defines no `ContainerClientNotResolved`, so the raise statement itself
fails on the module-attribute lookup and this bare interpreter error is
what the caller gets instead of a structured failure. -/
def attr_missing_exc_msg : String :=
  "AttributeError: module src.exceptions has no attribute ContainerClientNotResolved"

/-- Message for the `AttributeError` raised when a method dereferences
`cls.client` while it is `None`. -/
def attr_on_none_msg : String :=
  "AttributeError: NoneType object has no method list_namespaced_pod"

/-- Message for the `NameError` raised when `pod_to_delete` is read in the
service-deletion loop without the pod-deletion loop having run. -/
def name_error_msg : String :=
  "NameError: name pod_to_delete is not defined"

/-- `ContainerManager.check_client` (`src/containers.py:49`): when the
class-level client is `None` it builds a message and attempts to raise
`exceptions.ContainerClientNotResolved`, but that class does not exist in
`src/exceptions.py`, so what actually leaves `check_client` is the
`AttributeError` from the failed attribute lookup. -/
def check_client (clientOk : Bool) : Except CErr Unit :=
  if clientOk then .ok () else .error (.pyError attr_missing_exc_msg)

/-- Modelled from the spec: `src/constants.py` is absent from `src/`.
`RC_DOCKER_NETWORK` is the Docker backend's default isolation boundary,
used when the caller passes an empty `container_network` (spec section 3:
"isolationBoundary (optional, backend default if empty)"). -/
def RC_DOCKER_NETWORK : String := "rest-container-network"

/-- Modelled from the spec: `src/constants.py` is absent from `src/`.
`RC_KUBERNETES_NAMESPACE` is the Kubernetes backend's default isolation
boundary (namespace name). -/
def RC_KUBERNETES_NAMESPACE : String := "rest-container-namespace"

/-- The constructor arguments of a `ContainerManager`
(`ContainerManager.__init__`, `src/containers.py:23`). -/
structure ContainerSpec where
  image_name : String
  container_name : String
  container_network : String
  publish_information : List (String × Int)
  environment : List (String × String)
deriving DecidableEq, Repr

/-- `DockerContainerManager.__init__`: default the network when empty. -/
def DockerContainerManager.resolve_network (container_network : String) : String :=
  if container_network = "" then RC_DOCKER_NETWORK else container_network

/-- `KubernetesContainerManager.__init__`: default the namespace when empty. -/
def KubernetesContainerManager.resolve_namespace (container_network : String) : String :=
  if container_network = "" then RC_KUBERNETES_NAMESPACE else container_network

/-- A Docker container as the daemon tracks it: its id, name, the network
it was created in, the address the daemon will hand it once started, and
whether it is running. -/
structure DContainer where
  id : String
  name : String
  network : String
  assignedIp : String
  running : Bool
deriving DecidableEq, Repr

/-- The Docker daemon's state: networks by name, containers, and a counter
from which fresh container ids are minted. -/
structure DockerState where
  networks : List String
  containers : List DContainer
  nextId : Nat
deriving DecidableEq, Repr

/-- Fresh container id minted by the daemon at `containers.create`. -/
def freshContainerId (st : DockerState) : String := "ctr-" ++ toString st.nextId

/-- `DockerContainerManager.create_network` (`src/containers.py:147`):
list networks matching the name; create only when none exist. -/
def DockerContainerManager.create_network (clientOk : Bool) (container_network : String)
    (st : DockerState) : Except CErr Unit × DockerState :=
  match check_client clientOk with
  | .error e => (.error e, st)
  | .ok _ =>
    let existing_networks := st.networks.filter (fun n => decide (n = container_network))
    if existing_networks.isEmpty then
      (.ok (), { st with networks := st.networks ++ [container_network] })
    else
      (.ok (), st)

/-- The buggy tuple unpack `_, host_port = key` applied to a dict *key*
(a `str`): succeeds only when the string has exactly two characters,
otherwise raises `ValueError`. -/
def unpackPair (s : String) : Except CErr (String × String) :=
  match s.data with
  | [a, b] => .ok (String.mk [a], String.mk [b])
  | _ => .error (.valueError ("values to unpack mismatch for key " ++ s))

/-- The list comprehension in `DockerContainerManager.create_container`
(`src/containers.py:216`): `for _, host_port in self.publish_information`
iterates the dict's *keys* and tuple-unpacks each key string. -/
def dockerPublishEntries (cid net : String) : List String → Except CErr (List CreateEntry)
| [] => .ok []
| k :: rest =>
  match unpackPair k with
  | .error e => .error e
  | .ok pr =>
    match dockerPublishEntries cid net rest with
    | .error e => .error e
    | .ok es =>
      .ok ({ container_id := cid, container_network := net, container_port := .str pr.2 } :: es)

/-- `DockerContainerManager.create_container` (`src/containers.py:175`):
check client, ensure the network, create one container, then return one
entry per publish mapping (via the buggy key iteration) or a single
null-port entry when `publish_information` is empty. -/
def DockerContainerManager.create_container (clientOk : Bool) (self : ContainerSpec)
    (st : DockerState) : Except CErr (List CreateEntry) × DockerState :=
  let net := DockerContainerManager.resolve_network self.container_network
  match check_client clientOk with
  | .error e => (.error e, st)
  | .ok _ =>
    match DockerContainerManager.create_network clientOk net st with
    | (.error e, st1) => (.error e, st1)
    | (.ok _, st1) =>
      if st1.containers.any (fun c => decide (c.name = self.container_name)) then
        (.error (.dockerError ("409 Conflict: name already in use " ++ self.container_name)), st1)
      else
        let cid := freshContainerId st1
        let newC : DContainer :=
          { id := cid, name := self.container_name, network := net,
            assignedIp := "10.0.0." ++ toString st1.nextId, running := false }
        let st2 : DockerState :=
          { st1 with containers := st1.containers ++ [newC], nextId := st1.nextId + 1 }
        if self.publish_information.isEmpty then
          (.ok [{ container_id := cid, container_network := net, container_port := .nil }], st2)
        else
          match dockerPublishEntries cid net (self.publish_information.map Prod.fst) with
          | .error e => (.error e, st2)
          | .ok es => (.ok es, st2)

/-- `client.containers.get(container_id)`: raises a `DockerException`
(404) when no container has that id. -/
def dockerGet (st : DockerState) (cid : String) : Except CErr DContainer :=
  match st.containers.find? (fun c => decide (c.id = cid)) with
  | some c => .ok c
  | none => .error (.dockerError ("404 No such container " ++ cid))

/-- `container.start()`: mark the container running (the daemon then
exposes its assigned address on the container's network). -/
def dockerSetRunning (st : DockerState) (cid : String) (b : Bool) : DockerState :=
  { st with containers :=
      st.containers.map (fun c => if c.id = cid then { c with running := b } else c) }

/-- The per-id body of `DockerContainerManager.start_container`: get,
start, reload, read the IP under the requested network name. -/
def dockerStartOne (container_network : String) (cid : String) (st : DockerState) :
    Except CErr StartEntry × DockerState :=
  match dockerGet st cid with
  | .error e => (.error e, st)
  | .ok c =>
    let st1 := dockerSetRunning st cid true
    if c.network = container_network then
      if c.assignedIp = "" then
        (.error (.ipUnresolved "Containers ip address is not resolved."), st1)
      else
        (.ok { container_id := cid, container_ip := c.assignedIp }, st1)
    else
      (.error (.pyError ("KeyError: " ++ container_network)), st1)

/-- The loop of `DockerContainerManager.start_container`. -/
def dockerStartLoop (container_network : String) (ids : List String)
    (st : DockerState) (acc : List StartEntry) : Except CErr (List StartEntry) × DockerState :=
  match ids with
  | [] => (.ok acc, st)
  | cid :: rest =>
    match dockerStartOne container_network cid st with
    | (.error e, st1) => (.error e, st1)
    | (.ok en, st1) => dockerStartLoop container_network rest st1 (acc ++ [en])

/-- `DockerContainerManager.start_container` (`src/containers.py:239`). -/
def DockerContainerManager.start_container (clientOk : Bool) (container_ids : List String)
    (container_network : String) (st : DockerState) : Except CErr (List StartEntry) × DockerState :=
  match check_client clientOk with
  | .error e => (.error e, st)
  | .ok _ => dockerStartLoop container_network container_ids st []

/-- The shared loop of Docker `stop_container` / `delete_container`: get
the container, call `container.stop()` (both methods call only `stop`),
and tag the entry with the given status. -/
def dockerStopLoop (statusTag : String) (container_network : String) (ids : List String)
    (st : DockerState) (acc : List OpEntry) : Except CErr (List OpEntry) × DockerState :=
  match ids with
  | [] => (.ok acc, st)
  | cid :: rest =>
    match dockerGet st cid with
    | .error e => (.error e, st)
    | .ok c =>
      let st1 := dockerSetRunning st cid false
      dockerStopLoop statusTag container_network rest st1
        (acc ++ [{ container_id := c.id, container_network := container_network, status := statusTag }])

/-- `DockerContainerManager.stop_container` (`src/containers.py:291`). -/
def DockerContainerManager.stop_container (clientOk : Bool) (container_ids : List String)
    (container_network : String) (st : DockerState) : Except CErr (List OpEntry) × DockerState :=
  match check_client clientOk with
  | .error e => (.error e, st)
  | .ok _ => dockerStopLoop "stopped" container_network container_ids st []

/-- `DockerContainerManager.delete_container` (`src/containers.py:329`):
identical to `stop_container` except for the status tag — the body calls
`container.stop()` and never `container.remove()`. -/
def DockerContainerManager.delete_container (clientOk : Bool) (container_ids : List String)
    (container_network : String) (st : DockerState) : Except CErr (List OpEntry) × DockerState :=
  match check_client clientOk with
  | .error e => (.error e, st)
  | .ok _ => dockerStopLoop "deleted" container_network container_ids st []

/-- A Kubernetes Pod as the API server tracks it. -/
structure KPod where
  uid : String
  name : String
  ns : String
  ip : String
  image : String
  ports : List Nat
deriving DecidableEq, Repr

/-- A Kubernetes Service as the API server tracks it (`spec.type` is
`"LoadBalancer"` for everything this code creates; `selectorApp` is the
`app=` label selector; one `V1ServicePort` forwarding `port` to
`targetPort`). -/
structure KService where
  uid : String
  name : String
  ns : String
  clusterIp : String
  selectorApp : String
  port : Int
  targetPort : Nat
  protocol : String
  svcType : String
deriving DecidableEq, Repr

/-- A Kubernetes Endpoints object: each subset carries the pod names its
addresses' `target_ref`s point at. -/
structure KEndpoints where
  name : String
  ns : String
  subsets : List (List String)
deriving DecidableEq, Repr

/-- The Kubernetes API server's state.  `nextUid` mints fresh resource
UIDs.  `failEndpoints` models a transport-level failure of
`list_namespaced_endpoints` (the API server is an opaque remote service
with its own availability): when set, that call raises. -/
structure KState where
  namespaces : List String
  netpols : List (String × String)
  pods : List KPod
  services : List KService
  endpoints : List KEndpoints
  nextUid : Nat
  failEndpoints : Bool
deriving DecidableEq, Repr

/-- Fresh UID minted by the API server for a created resource. -/
def freshUid (st : KState) : String := "uid-" ++ toString st.nextUid

/-- There is a pod with this name in this namespace. -/
def podExists (st : KState) (ns pname : String) : Prop :=
  ∃ p ∈ st.pods, p.ns = ns ∧ p.name = pname

instance (st : KState) (ns pname : String) : Decidable (podExists st ns pname) :=
  List.decidableBEx _ st.pods

/-- There is a service with this name in this namespace. -/
def svcExists (st : KState) (ns sname : String) : Prop :=
  ∃ s ∈ st.services, s.ns = ns ∧ s.name = sname

instance (st : KState) (ns sname : String) : Decidable (svcExists st ns sname) :=
  List.decidableBEx _ st.services

/-- `KubernetesContainerManager.create_namespace` (`src/containers.py:414`):
list namespaces; when the name is absent, create it and install the
`deny-from-other-namespaces` network policy in it. -/
def KubernetesContainerManager.create_namespace (clientOk : Bool) (namespace_name : String)
    (st : KState) : Except CErr Unit × KState :=
  match check_client clientOk with
  | .error e => (.error e, st)
  | .ok _ =>
    if st.namespaces.any (fun n => decide (n = namespace_name)) then
      (.ok (), st)
    else
      (.ok (), { st with
        namespaces := st.namespaces ++ [namespace_name],
        netpols := st.netpols ++ [(namespace_name, "deny-from-other-namespaces")] })

/-- The dict returned by `KubernetesContainerManager.create_service`. -/
structure ServiceResult where
  service_id : String
  service_ip : String
  service_name : String
  service_namespace : String
  service_port : Int
deriving DecidableEq, Repr

/-- One item of the `service_information_list` built by
`extract_publish_information`. -/
structure ServiceInfo where
  service_port : Int
  target_port : Nat
  protocol : String
deriving DecidableEq, Repr

/-- `KubernetesContainerManager.create_service` (`src/containers.py:458`):
create one LoadBalancer Service; the API server rejects a duplicate name
in the namespace (409). -/
def KubernetesContainerManager.create_service (clientOk : Bool)
    (service_name app_name namespace_name : String) (service_port : Int) (target_port : Nat)
    (protocol : String) (st : KState) : Except CErr ServiceResult × KState :=
  match check_client clientOk with
  | .error e => (.error e, st)
  | .ok _ =>
    if svcExists st namespace_name service_name then
      (.error (.apiError ("409 services " ++ service_name ++ " already exists")), st)
    else
      let uid := freshUid st
      let ip := "cip-" ++ toString st.nextUid
      let svc : KService :=
        { uid := uid, name := service_name, ns := namespace_name, clusterIp := ip,
          selectorApp := app_name, port := service_port, targetPort := target_port,
          protocol := protocol, svcType := "LoadBalancer" }
      (.ok { service_id := uid, service_ip := ip, service_name := service_name,
             service_namespace := namespace_name, service_port := service_port },
       { st with services := st.services ++ [svc], nextUid := st.nextUid + 1 })

/-- The indexed loop of `create_services_for_app`
(`src/containers.py:558`): service named `<service_name>-<index>`. -/
def createServicesLoop (clientOk : Bool) (service_name app_name namespace_name : String)
    (items : List ServiceInfo) (index : Nat) (st : KState) :
    Except CErr (List ServiceResult) × KState :=
  match items with
  | [] => (.ok [], st)
  | item :: rest =>
    match KubernetesContainerManager.create_service clientOk
        (service_name ++ "-" ++ toString index) app_name namespace_name
        item.service_port item.target_port item.protocol st with
    | (.error e, st1) => (.error e, st1)
    | (.ok r, st1) =>
      match createServicesLoop clientOk service_name app_name namespace_name rest (index + 1) st1 with
      | (.error e, st2) => (.error e, st2)
      | (.ok rs, st2) => (.ok (r :: rs), st2)

/-- `KubernetesContainerManager.create_services_for_app`
(`src/containers.py:518`). -/
def KubernetesContainerManager.create_services_for_app (clientOk : Bool)
    (service_name app_name namespace_name : String) (service_information_list : List ServiceInfo)
    (st : KState) : Except CErr (List ServiceResult) × KState :=
  match check_client clientOk with
  | .error e => (.error e, st)
  | .ok _ => createServicesLoop clientOk service_name app_name namespace_name
      service_information_list 0 st

/-- Insertion into a Python `set`, determinized as an insertion-ordered
duplicate-free list. -/
def insertDedup {α : Type} [DecidableEq α] (xs : List α) (a : α) : List α :=
  if a ∈ xs then xs else xs ++ [a]

/-- The loop of `KubernetesContainerManager.extract_publish_information`
(`src/containers.py:577`): split each key on `/`, parse the target port as
an int, accumulate it into the unique set, and append one service-info
dict per map entry with the protocol uppercased. -/
def extractPublishLoop : List (String × Int) → List Nat → List ServiceInfo →
    Except CErr (List Nat × List ServiceInfo)
| [], us, sis => .ok (us, sis)
| (k, sp) :: rest, us, sis =>
  match splitOnChar '/' k with
  | [tps, proto] =>
    match pyInt? tps with
    | some tp =>
      extractPublishLoop rest (insertDedup us tp)
        (sis ++ [{ service_port := sp, target_port := tp, protocol := pyUpper proto }])
    | none => .error (.valueError ("invalid literal for int: " ++ tps))
  | _ => .error (.valueError ("values to unpack mismatch for key " ++ k))

/-- `KubernetesContainerManager.extract_publish_information`
(`src/containers.py:577`): returns `(unique_target_ports,
service_information_list)`.  The Python `set` is determinized as an
insertion-ordered duplicate-free list. -/
def KubernetesContainerManager.extract_publish_information
    (publish_information : List (String × Int)) : Except CErr (List Nat × List ServiceInfo) :=
  extractPublishLoop publish_information [] []

/-- `KubernetesContainerManager.create_container` (`src/containers.py:603`):
check client, extract publish info, ensure the namespace, create the pod
(ports deduplicated), create one service per service-info entry, and
return one entry per created service, or a single null-port entry carrying
the pod UID when no services were created. -/
def KubernetesContainerManager.create_container (clientOk : Bool) (self : ContainerSpec)
    (st : KState) : Except CErr (List CreateEntry) × KState :=
  let ns := KubernetesContainerManager.resolve_namespace self.container_network
  match check_client clientOk with
  | .error e => (.error e, st)
  | .ok _ =>
    match KubernetesContainerManager.extract_publish_information self.publish_information with
    | .error e => (.error e, st)
    | .ok extracted =>
      match KubernetesContainerManager.create_namespace clientOk ns st with
      | (.error e, st1) => (.error e, st1)
      | (.ok _, st1) =>
        if podExists st1 ns self.container_name then
          (.error (.apiError ("409 pods " ++ self.container_name ++ " already exists")), st1)
        else
          let uid := freshUid st1
          let pod : KPod :=
            { uid := uid, name := self.container_name, ns := ns,
              ip := "pip-" ++ toString st1.nextUid, image := self.image_name,
              ports := extracted.1 }
          let st2 : KState := { st1 with pods := st1.pods ++ [pod], nextUid := st1.nextUid + 1 }
          match KubernetesContainerManager.create_services_for_app clientOk
              (self.container_name ++ "-service") self.container_name ns extracted.2 st2 with
          | (.error e, st3) => (.error e, st3)
          | (.ok services_list, st3) =>
            if services_list.isEmpty then
              (.ok [{ container_id := uid, container_network := ns, container_port := .nil }], st3)
            else
              (.ok (services_list.map (fun s =>
                { container_id := s.service_id, container_network := s.service_namespace,
                  container_port := .int s.service_port })), st3)

/-- The pods of a namespace, in list order (`list_namespaced_pod`). -/
def nsPods (st : KState) (ns : String) : List KPod :=
  st.pods.filter (fun p => decide (p.ns = ns))

/-- The services of a namespace, in list order (`list_namespaced_service`). -/
def nsServices (st : KState) (ns : String) : List KService :=
  st.services.filter (fun s => decide (s.ns = ns))

/-- The `pod_ids` list built by k8s `start_container` / `delete_container`. -/
def nsPodUids (st : KState) (ns : String) : List String := (nsPods st ns).map KPod.uid

/-- The `service_ids` list built by k8s `start_container` / `delete_container`. -/
def nsSvcUids (st : KState) (ns : String) : List String := (nsServices st ns).map KService.uid

/-- Lookup in the `pod_ids_name_map` dict (later assignments win, hence
the reverse search). -/
def podNameOf (st : KState) (ns cid : String) : String :=
  (((nsPods st ns).reverse.find? (fun p => decide (p.uid = cid))).map KPod.name).getD ""

/-- Lookup in the `pod_ids_ip_map` dict. -/
def podIpOf (st : KState) (ns cid : String) : String :=
  (((nsPods st ns).reverse.find? (fun p => decide (p.uid = cid))).map KPod.ip).getD ""

/-- Lookup in the `service_ids_name_map` dict. -/
def svcNameOf (st : KState) (ns cid : String) : String :=
  (((nsServices st ns).reverse.find? (fun s => decide (s.uid = cid))).map KService.name).getD ""

/-- Lookup in the `service_ids_ip_map` dict. -/
def svcIpOf (st : KState) (ns cid : String) : String :=
  (((nsServices st ns).reverse.find? (fun s => decide (s.uid = cid))).map KService.clusterIp).getD ""

/-- The per-id loop of `KubernetesContainerManager.start_container`: a pod
id yields its pod IP, a service id its cluster IP, and an id matching
neither is silently skipped. -/
def kStartLoop (st : KState) (ns : String) : List String → List StartEntry → List StartEntry
| [], acc => acc
| cid :: rest, acc =>
  if cid ∈ nsPodUids st ns then
    kStartLoop st ns rest (acc ++ [{ container_id := cid, container_ip := podIpOf st ns cid }])
  else if cid ∈ nsSvcUids st ns then
    kStartLoop st ns rest (acc ++ [{ container_id := cid, container_ip := svcIpOf st ns cid }])
  else
    kStartLoop st ns rest acc

/-- `KubernetesContainerManager.start_container` (`src/containers.py:700`):
note there is no `check_client` call — with a `None` client the first
`cls.client.` dereference raises an `AttributeError`, which escapes
unstructured. -/
def KubernetesContainerManager.start_container (clientOk : Bool) (container_ids : List String)
    (container_network : String) (st : KState) : Except CErr (List StartEntry) × KState :=
  if clientOk then
    (.ok (kStartLoop st container_network container_ids []), st)
  else
    (.error (.pyError attr_on_none_msg), st)

/-- `KubernetesContainerManager.get_pods_for_service`
(`src/containers.py:796`): find the namespace's Endpoints object with the
service's name and collect the pod names behind its subset addresses.
Every exception (including a failing `list_namespaced_endpoints` call, or
an `AttributeError` on a `None` client) is caught, printed, and swallowed
into an empty result. -/
def KubernetesContainerManager.get_pods_for_service (clientOk : Bool)
    (service_name namespace_name : String) (st : KState) : List String :=
  if clientOk ∧ st.failEndpoints = false then
    match (st.endpoints.filter (fun e => decide (e.ns = namespace_name))).find?
        (fun e => decide (e.name = service_name)) with
    | some e => e.subsets.foldl (fun acc subset => acc ++ subset) []
    | none => []
  else
    []

/-- The value a loop variable holds after iterating a list: the list's
last element, or the incoming value when the list was empty. -/
def lastChoice {α : Type} : List α → Option α → Option α
| [], lp => lp
| a :: rest, _ => lastChoice rest (some a)

/-- Queue every pod name backing a service into `pods_to_delete`, each
paired with the service's container id (`src/containers.py:880`). -/
def addPodsFromService (pds : List (String × String)) (pnames : List String)
    (cid : String) : List (String × String) :=
  match pnames with
  | [] => pds
  | pn :: rest => addPodsFromService (insertDedup pds (pn, cid)) rest cid

/-- The id-resolution loop of `KubernetesContainerManager.delete_container`
(`src/containers.py:864`): a pod uid queues `(pod_name, id)`; a service
uid queues `(service_name, id)` and `(backing_pod_name, id)` for every pod
behind the service's Endpoints; an unknown id queues nothing. -/
def resolveLoop (clientOk : Bool) (ns : String) (st : KState) :
    List String → List (String × String) → List (String × String) →
    List (String × String) × List (String × String)
| [], pds, svs => (pds, svs)
| cid :: rest, pds, svs =>
  if cid ∈ nsPodUids st ns then
    resolveLoop clientOk ns st rest (insertDedup pds (podNameOf st ns cid, cid)) svs
  else if cid ∈ nsSvcUids st ns then
    let sname := svcNameOf st ns cid
    let pnames := KubernetesContainerManager.get_pods_for_service clientOk sname ns st
    resolveLoop clientOk ns st rest (addPodsFromService pds pnames cid)
      (insertDedup svs (sname, cid))
  else
    resolveLoop clientOk ns st rest pds svs

/-- `pods_to_delete` and `services_to_delete` as resolved by
`delete_container` (Python sets, determinized in insertion order). -/
def resolveDeletions (clientOk : Bool) (container_ids : List String) (ns : String)
    (st : KState) : List (String × String) × List (String × String) :=
  resolveLoop clientOk ns st container_ids [] []

/-- `client.delete_namespaced_pod(name, namespace)`: remove the pod, or
raise a 404 `ApiException` when no pod of that name exists there. -/
def delete_namespaced_pod (pname ns : String) (st : KState) : Except CErr KState :=
  if podExists st ns pname then
    .ok { st with pods := st.pods.filter (fun p => !decide (p.ns = ns ∧ p.name = pname)) }
  else
    .error (.apiError ("404 pods " ++ pname ++ " not found"))

/-- `client.delete_namespaced_service(name, namespace)`. -/
def delete_namespaced_service (sname ns : String) (st : KState) : Except CErr KState :=
  if svcExists st ns sname then
    .ok { st with services := st.services.filter (fun s => !decide (s.ns = ns ∧ s.name = sname)) }
  else
    .error (.apiError ("404 services " ++ sname ++ " not found"))

/-- The pod-deletion loop (`src/containers.py:884`): delete each queued
pod, append one `"deleted pod"` entry carrying the queued id, and leave
`pod_to_delete` holding the last tuple iterated. -/
def deletePodsLoop (ns : String) : List (String × String) → KState → List OpEntry →
    Option (String × String) → Except CErr (List OpEntry × Option (String × String)) × KState
| [], st, acc, lastPod => (.ok (acc, lastPod), st)
| p :: rest, st, acc, _ =>
  match delete_namespaced_pod p.1 ns st with
  | .error e => (.error e, st)
  | .ok st1 =>
    deletePodsLoop ns rest st1
      (acc ++ [{ container_id := p.2, container_network := ns, status := "deleted pod" }])
      (some p)

/-- The service-deletion loop (`src/containers.py:894`): delete each
queued service, then build the `"deleted service"` entry from
`pod_to_delete[1]` — the leftover pod-loop variable.  When no pod was ever
iterated, reading it raises a `NameError` (after the backend deletion
already happened). -/
def deleteServicesLoop (ns : String) : List (String × String) → KState → List OpEntry →
    Option (String × String) → Except CErr (List OpEntry) × KState
| [], st, acc, _ => (.ok acc, st)
| s :: rest, st, acc, lastPod =>
  match delete_namespaced_service s.1 ns st with
  | .error e => (.error e, st)
  | .ok st1 =>
    match lastPod with
    | none => (.error (.pyError name_error_msg), st1)
    | some lp =>
      deleteServicesLoop ns rest st1
        (acc ++ [{ container_id := lp.2, container_network := ns, status := "deleted service" }])
        (some lp)

/-- `KubernetesContainerManager.delete_container` (`src/containers.py:821`):
no `check_client` call (a `None` client raises an `AttributeError` at the
first `cls.client.` dereference); resolve ids into `pods_to_delete` and
`services_to_delete`, delete all pods first, then all services. -/
def KubernetesContainerManager.delete_container (clientOk : Bool) (container_ids : List String)
    (container_network : String) (st : KState) : Except CErr (List OpEntry) × KState :=
  if clientOk then
    let resolved := resolveDeletions clientOk container_ids container_network st
    match deletePodsLoop container_network resolved.1 st [] none with
    | (.error e, st1) => (.error e, st1)
    | (.ok podsDone, st1) =>
      deleteServicesLoop container_network resolved.2 st1 podsDone.1 podsDone.2
  else
    (.error (.pyError attr_on_none_msg), st)

/-- `KubernetesContainerManager.stop_container` (`src/containers.py:763`):
delegates to `delete_container` and re-raises whatever it raises. -/
def KubernetesContainerManager.stop_container (clientOk : Bool) (container_ids : List String)
    (container_network : String) (st : KState) : Except CErr (List OpEntry) × KState :=
  match KubernetesContainerManager.delete_container clientOk container_ids container_network st with
  | (.error e, st1) => (.error e, st1)
  | (.ok res, st1) => (.ok res, st1)

/-- Idempotence of boundary provisioning at the given inputs: the first
call succeeds, the second call is a no-op that raises no error, and
exactly one boundary with the name exists afterwards — for both the
Docker network and the Kubernetes namespace provisioner. -/
def boundaryIdempotent (n : String) (dst : DockerState) (kst : KState) : Prop :=
  (DockerContainerManager.create_network true n dst).1 = .ok () ∧
  DockerContainerManager.create_network true n (DockerContainerManager.create_network true n dst).2
    = (.ok (), (DockerContainerManager.create_network true n dst).2) ∧
  ((DockerContainerManager.create_network true n dst).2).networks.count n = 1 ∧
  (KubernetesContainerManager.create_namespace true n kst).1 = .ok () ∧
  KubernetesContainerManager.create_namespace true n
      (KubernetesContainerManager.create_namespace true n kst).2
    = (.ok (), (KubernetesContainerManager.create_namespace true n kst).2) ∧
  ((KubernetesContainerManager.create_namespace true n kst).2).namespaces.count n = 1

/-- On an empty publish map, each backend's create returns exactly one
entry with a null port; on Kubernetes that entry carries the created Pod's
UID. -/
def emptyPublishResult (self kself : ContainerSpec) (dst : DockerState) (kst : KState) : Prop :=
  (∃ cid, (DockerContainerManager.create_container true self dst).1
      = .ok [{ container_id := cid,
               container_network := DockerContainerManager.resolve_network self.container_network,
               container_port := PValue.nil }]) ∧
  (∃ uid, (KubernetesContainerManager.create_container true kself kst).1
      = .ok [{ container_id := uid,
               container_network := KubernetesContainerManager.resolve_namespace kself.container_network,
               container_port := PValue.nil }] ∧
    ∃ p ∈ ((KubernetesContainerManager.create_container true kself kst).2).pods,
      p.uid = uid ∧ p.name = kself.container_name)

/-- What Kubernetes delete does when its per-resource backend deletions
succeed: every service id queues the service and all its Endpoints-backed
pods; the call returns one `"deleted pod"` entry per queued pod followed by
one `"deleted service"` entry per queued service (the latter carrying the
leftover pod-loop id), and all queued pods and services are gone from the
backend afterwards. -/
def deleteCascadeSpec (ids : List String) (ns : String) (st : KState) : Prop :=
  (∀ cid ∈ ids, cid ∉ nsPodUids st ns → cid ∈ nsSvcUids st ns →
    (svcNameOf st ns cid, cid) ∈ (resolveDeletions true ids ns st).2 ∧
    ∀ pn ∈ KubernetesContainerManager.get_pods_for_service true (svcNameOf st ns cid) ns st,
      (pn, cid) ∈ (resolveDeletions true ids ns st).1) ∧
  ∃ res st1, KubernetesContainerManager.delete_container true ids ns st = (.ok res, st1) ∧
    res = ((resolveDeletions true ids ns st).1).map
        (fun p => { container_id := p.2, container_network := ns, status := "deleted pod" })
      ++ ((resolveDeletions true ids ns st).2).map
        (fun _s => { container_id := (((lastChoice (resolveDeletions true ids ns st).1 none).map Prod.snd).getD ""),
                     container_network := ns, status := "deleted service" }) ∧
    (∀ pr ∈ (resolveDeletions true ids ns st).1, ¬ podExists st1 ns pr.1) ∧
    (∀ sr ∈ (resolveDeletions true ids ns st).2, ¬ svcExists st1 ns sr.1)

/-- The error-propagation picture of the code: `get_pods_for_service`
swallows a failing Endpoints listing into an empty result; Kubernetes
start never raises and silently omits unknown ids; Docker stop and delete
fail fast on an unknown id. -/
def propagationSpec (sname nsx : String) (stx : KState) (ids : List String) (nsy : String)
    (sty : KState) (dst : DockerState) (net cid : String) (restIds : List String) : Prop :=
  KubernetesContainerManager.get_pods_for_service true sname nsx stx = [] ∧
  (∃ res, KubernetesContainerManager.start_container true ids nsy sty = (.ok res, sty) ∧
    ∀ e ∈ res, e.container_id ∈ ids ∧
      (e.container_id ∈ nsPodUids sty nsy ∨ e.container_id ∈ nsSvcUids sty nsy)) ∧
  isErr (DockerContainerManager.stop_container true (cid :: restIds) net dst).1 = true ∧
  isErr (DockerContainerManager.delete_container true (cid :: restIds) net dst).1 = true

/-- The `pod_to_delete[1]` leftover: when no pod is queued but a service
is, delete raises; when delete returns normally, every `"deleted service"`
entry carries the id recorded with the last deleted pod. -/
def stalePodVarSpec (ids : List String) (ns : String) (st : KState) : Prop :=
  ((resolveDeletions true ids ns st).1 = [] → (resolveDeletions true ids ns st).2 ≠ [] →
    isErr (KubernetesContainerManager.delete_container true ids ns st).1 = true) ∧
  (∀ res, (KubernetesContainerManager.delete_container true ids ns st).1 = .ok res →
    ∀ e ∈ res, e.status = "deleted service" →
      some e.container_id = (lastChoice (resolveDeletions true ids ns st).1 none).map Prod.snd)

theorem mem_insertDedup_self {α : Type} [DecidableEq α] (xs : List α) (a : α) :
    a ∈ insertDedup xs a := by
  unfold insertDedup
  by_cases h : a ∈ xs <;> simp [h]

theorem mem_insertDedup {α : Type} [DecidableEq α] (xs : List α) (a b : α) (h : b ∈ xs) :
    b ∈ insertDedup xs a := by
  unfold insertDedup
  by_cases h2 : a ∈ xs <;> simp [h2, h]

theorem addPods_mono (pnames : List String) :
    ∀ (pds : List (String × String)) (cid : String) (b : String × String),
    b ∈ pds → b ∈ addPodsFromService pds pnames cid := by
  induction pnames with
  | nil => intro pds cid b h; simpa [addPodsFromService] using h
  | cons pn rest ih =>
    intro pds cid b h
    simp only [addPodsFromService]
    exact ih _ _ _ (mem_insertDedup _ _ _ h)

theorem addPods_adds (pnames : List String) :
    ∀ (pds : List (String × String)) (cid pn : String),
    pn ∈ pnames → (pn, cid) ∈ addPodsFromService pds pnames cid := by
  induction pnames with
  | nil => intro _ _ _ h; cases h
  | cons q rest ih =>
    intro pds cid pn h
    simp only [addPodsFromService]
    rcases List.mem_cons.mp h with h1 | h2
    · subst h1; exact addPods_mono rest _ _ _ (mem_insertDedup_self _ _)
    · exact ih _ _ _ h2

theorem resolveLoop_mono_pds (clientOk : Bool) (ns : String) (st : KState) (ids : List String) :
    ∀ (pds svs : List (String × String)) (b : String × String),
    b ∈ pds → b ∈ (resolveLoop clientOk ns st ids pds svs).1 := by
  induction ids with
  | nil => intro pds svs b h; simpa [resolveLoop] using h
  | cons cid rest ih =>
    intro pds svs b h
    simp only [resolveLoop]
    by_cases h1 : cid ∈ nsPodUids st ns
    · rw [if_pos h1]; exact ih _ _ _ (mem_insertDedup _ _ _ h)
    · by_cases h2 : cid ∈ nsSvcUids st ns
      · rw [if_neg h1, if_pos h2]; exact ih _ _ _ (addPods_mono _ _ _ _ h)
      · rw [if_neg h1, if_neg h2]; exact ih _ _ _ h

theorem resolveLoop_mono_svs (clientOk : Bool) (ns : String) (st : KState) (ids : List String) :
    ∀ (pds svs : List (String × String)) (b : String × String),
    b ∈ svs → b ∈ (resolveLoop clientOk ns st ids pds svs).2 := by
  induction ids with
  | nil => intro pds svs b h; simpa [resolveLoop] using h
  | cons cid rest ih =>
    intro pds svs b h
    simp only [resolveLoop]
    by_cases h1 : cid ∈ nsPodUids st ns
    · rw [if_pos h1]; exact ih _ _ _ h
    · by_cases h2 : cid ∈ nsSvcUids st ns
      · rw [if_neg h1, if_pos h2]; exact ih _ _ _ (mem_insertDedup _ _ _ h)
      · rw [if_neg h1, if_neg h2]; exact ih _ _ _ h

theorem resolveLoop_cascade (clientOk : Bool) (ns : String) (st : KState) (ids : List String) :
    ∀ (pds svs : List (String × String)) (cid : String),
    cid ∈ ids → cid ∉ nsPodUids st ns → cid ∈ nsSvcUids st ns →
    (svcNameOf st ns cid, cid) ∈ (resolveLoop clientOk ns st ids pds svs).2 ∧
    ∀ pn ∈ KubernetesContainerManager.get_pods_for_service clientOk (svcNameOf st ns cid) ns st,
      (pn, cid) ∈ (resolveLoop clientOk ns st ids pds svs).1 := by
  induction ids with
  | nil => intro _ _ _ h; cases h
  | cons c rest ih =>
    intro pds svs cid hmem hnp hsv
    rcases List.mem_cons.mp hmem with rfl | htl
    · simp only [resolveLoop]
      rw [if_neg hnp, if_pos hsv]
      constructor
      · exact resolveLoop_mono_svs _ _ _ _ _ _ _ (mem_insertDedup_self _ _)
      · intro pn hpn
        exact resolveLoop_mono_pds _ _ _ _ _ _ _ (addPods_adds _ _ _ _ hpn)
    · simp only [resolveLoop]
      by_cases h1 : c ∈ nsPodUids st ns
      · rw [if_pos h1]; exact ih _ _ _ htl hnp hsv
      · by_cases h2 : c ∈ nsSvcUids st ns
        · rw [if_neg h1, if_pos h2]; exact ih _ _ _ htl hnp hsv
        · rw [if_neg h1, if_neg h2]; exact ih _ _ _ htl hnp hsv

theorem delete_pod_ok (pname ns : String) (st : KState) (h : podExists st ns pname) :
    ∃ st1, delete_namespaced_pod pname ns st = .ok st1 ∧
      (¬ podExists st1 ns pname) ∧
      (∀ x, ¬ podExists st ns x → ¬ podExists st1 ns x) ∧
      (∀ x, x ≠ pname → podExists st ns x → podExists st1 ns x) ∧
      st1.services = st.services ∧ st1.namespaces = st.namespaces ∧
      st1.endpoints = st.endpoints ∧ st1.netpols = st.netpols ∧
      st1.nextUid = st.nextUid ∧ st1.failEndpoints = st.failEndpoints := by
  have heq : delete_namespaced_pod pname ns st
      = .ok { st with pods := st.pods.filter (fun p => !decide (p.ns = ns ∧ p.name = pname)) } := by
    simp [delete_namespaced_pod, h]
  refine ⟨_, heq, ?_, ?_, ?_, rfl, rfl, rfl, rfl, rfl, rfl⟩
  · rintro ⟨p, hp, hns, hname⟩
    rw [List.mem_filter] at hp
    have h2 := hp.2
    simp [hns, hname] at h2
  · rintro x hnx ⟨p, hp, h1, h2⟩
    exact hnx ⟨p, (List.mem_filter.mp hp).1, h1, h2⟩
  · rintro x hne ⟨p, hp, h1, h2⟩
    refine ⟨p, List.mem_filter.mpr ⟨hp, ?_⟩, h1, h2⟩
    simp [h1, h2, hne]

theorem delete_svc_ok (sname ns : String) (st : KState) (h : svcExists st ns sname) :
    ∃ st1, delete_namespaced_service sname ns st = .ok st1 ∧
      (¬ svcExists st1 ns sname) ∧
      (∀ x, ¬ svcExists st ns x → ¬ svcExists st1 ns x) ∧
      (∀ x, x ≠ sname → svcExists st ns x → svcExists st1 ns x) ∧
      st1.pods = st.pods ∧ st1.namespaces = st.namespaces ∧
      st1.endpoints = st.endpoints ∧ st1.netpols = st.netpols ∧
      st1.nextUid = st.nextUid ∧ st1.failEndpoints = st.failEndpoints := by
  have heq : delete_namespaced_service sname ns st
      = .ok { st with services := st.services.filter (fun s => !decide (s.ns = ns ∧ s.name = sname)) } := by
    simp [delete_namespaced_service, h]
  refine ⟨_, heq, ?_, ?_, ?_, rfl, rfl, rfl, rfl, rfl, rfl⟩
  · rintro ⟨s, hs, hns, hname⟩
    rw [List.mem_filter] at hs
    have h2 := hs.2
    simp [hns, hname] at h2
  · rintro x hnx ⟨s, hs, h1, h2⟩
    exact hnx ⟨s, (List.mem_filter.mp hs).1, h1, h2⟩
  · rintro x hne ⟨s, hs, h1, h2⟩
    refine ⟨s, List.mem_filter.mpr ⟨hs, ?_⟩, h1, h2⟩
    simp [h1, h2, hne]

theorem podExists_congr (st1 st2 : KState) (h : st1.pods = st2.pods) (ns x : String) :
    podExists st1 ns x ↔ podExists st2 ns x := by
  unfold podExists
  rw [h]

theorem svcExists_congr (st1 st2 : KState) (h : st1.services = st2.services) (ns x : String) :
    svcExists st1 ns x ↔ svcExists st2 ns x := by
  unfold svcExists
  rw [h]

theorem deletePodsLoop_spec (ns : String) (toDel : List (String × String)) :
    ∀ (st : KState) (acc : List OpEntry) (lp : Option (String × String)),
    (toDel.map Prod.fst).Nodup →
    (∀ pr ∈ toDel, podExists st ns pr.1) →
    ∃ st1, deletePodsLoop ns toDel st acc lp
        = (.ok (acc ++ toDel.map
            (fun p => { container_id := p.2, container_network := ns, status := "deleted pod" }),
          lastChoice toDel lp), st1) ∧
      (∀ pr ∈ toDel, ¬ podExists st1 ns pr.1) ∧
      (∀ x, ¬ podExists st ns x → ¬ podExists st1 ns x) ∧
      st1.services = st.services ∧ st1.namespaces = st.namespaces ∧
      st1.endpoints = st.endpoints ∧ st1.netpols = st.netpols ∧
      st1.nextUid = st.nextUid ∧ st1.failEndpoints = st.failEndpoints := by
  induction toDel with
  | nil =>
    intro st acc lp _ _
    refine ⟨st, ?_, by simp, fun x h => h, rfl, rfl, rfl, rfl, rfl, rfl⟩
    simp [deletePodsLoop, lastChoice]
  | cons p rest ih =>
    intro st acc lp hnd hex
    have hp : podExists st ns p.1 := hex p (List.mem_cons_self p rest)
    obtain ⟨stA, heq, hself, hmono, hkeep, hsvc, hns2, hep, hnp2, hnu, hfe⟩ :=
      delete_pod_ok p.1 ns st hp
    rw [List.map_cons, List.nodup_cons] at hnd
    have hex2 : ∀ pr ∈ rest, podExists stA ns pr.1 := by
      intro pr hpr
      refine hkeep pr.1 ?_ (hex pr (List.mem_cons_of_mem p hpr))
      intro hcontra
      exact hnd.1 (by rw [← hcontra]; exact List.mem_map_of_mem Prod.fst hpr)
    obtain ⟨st1, heq1, hA, hB, hC, hD, hE, hF, hG, hH⟩ :=
      ih stA (acc ++ [{ container_id := p.2, container_network := ns, status := "deleted pod" }])
        (some p) hnd.2 hex2
    have hstep : deletePodsLoop ns (p :: rest) st acc lp
        = deletePodsLoop ns rest stA
            (acc ++ [{ container_id := p.2, container_network := ns, status := "deleted pod" }])
            (some p) := by
      simp [deletePodsLoop, heq]
    refine ⟨st1, ?_, ?_, ?_, hC.trans hsvc, hD.trans hns2, hE.trans hep,
      hF.trans hnp2, hG.trans hnu, hH.trans hfe⟩
    · rw [hstep, heq1]
      simp [lastChoice, List.append_assoc]
    · intro pr hpr
      rcases List.mem_cons.mp hpr with h1 | htl
      · rw [h1]; exact hB p.1 hself
      · exact hA pr htl
    · intro x hx
      exact hB x (hmono x hx)

theorem deleteServicesLoop_spec (ns : String) (toDel : List (String × String)) :
    ∀ (st : KState) (acc : List OpEntry) (lp : String × String),
    (toDel.map Prod.fst).Nodup →
    (∀ sr ∈ toDel, svcExists st ns sr.1) →
    ∃ st1, deleteServicesLoop ns toDel st acc (some lp)
        = (.ok (acc ++ toDel.map
            (fun _s => { container_id := lp.2, container_network := ns, status := "deleted service" })), st1) ∧
      (∀ sr ∈ toDel, ¬ svcExists st1 ns sr.1) ∧
      (∀ x, ¬ svcExists st ns x → ¬ svcExists st1 ns x) ∧
      st1.pods = st.pods ∧ st1.namespaces = st.namespaces ∧
      st1.endpoints = st.endpoints ∧ st1.netpols = st.netpols ∧
      st1.nextUid = st.nextUid ∧ st1.failEndpoints = st.failEndpoints := by
  induction toDel with
  | nil =>
    intro st acc lp _ _
    refine ⟨st, ?_, by simp, fun x h => h, rfl, rfl, rfl, rfl, rfl, rfl⟩
    simp [deleteServicesLoop]
  | cons s rest ih =>
    intro st acc lp hnd hex
    have hs : svcExists st ns s.1 := hex s (List.mem_cons_self s rest)
    obtain ⟨stA, heq, hself, hmono, hkeep, hpods, hns2, hep, hnp2, hnu, hfe⟩ :=
      delete_svc_ok s.1 ns st hs
    rw [List.map_cons, List.nodup_cons] at hnd
    have hex2 : ∀ sr ∈ rest, svcExists stA ns sr.1 := by
      intro sr hsr
      refine hkeep sr.1 ?_ (hex sr (List.mem_cons_of_mem s hsr))
      intro hcontra
      exact hnd.1 (by rw [← hcontra]; exact List.mem_map_of_mem Prod.fst hsr)
    obtain ⟨st1, heq1, hA, hB, hC, hD, hE, hF, hG, hH⟩ :=
      ih stA (acc ++ [{ container_id := lp.2, container_network := ns, status := "deleted service" }])
        lp hnd.2 hex2
    have hstep : deleteServicesLoop ns (s :: rest) st acc (some lp)
        = deleteServicesLoop ns rest stA
            (acc ++ [{ container_id := lp.2, container_network := ns, status := "deleted service" }])
            (some lp) := by
      simp [deleteServicesLoop, heq]
    refine ⟨st1, ?_, ?_, ?_, hC.trans hpods, hD.trans hns2, hE.trans hep,
      hF.trans hnp2, hG.trans hnu, hH.trans hfe⟩
    · rw [hstep, heq1]
      simp [List.append_assoc]
    · intro sr hsr
      rcases List.mem_cons.mp hsr with h1 | htl
      · rw [h1]; exact hB s.1 hself
      · exact hA sr htl
    · intro x hx
      exact hB x (hmono x hx)

theorem deletePodsLoop_ok_shape (ns : String) (toDel : List (String × String)) :
    ∀ (st : KState) (acc : List OpEntry) (lp : Option (String × String))
      (res : List OpEntry) (lpres : Option (String × String)) (st1 : KState),
    deletePodsLoop ns toDel st acc lp = (.ok (res, lpres), st1) →
    (∀ e ∈ res, e ∈ acc ∨ e.status = "deleted pod") ∧ lpres = lastChoice toDel lp := by
  induction toDel with
  | nil =>
    intro st acc lp res lpres st1 h
    simp only [deletePodsLoop, Prod.mk.injEq, Except.ok.injEq] at h
    obtain ⟨⟨h1, h2⟩, _⟩ := h
    subst h1; subst h2
    exact ⟨fun e he => Or.inl he, by simp [lastChoice]⟩
  | cons p rest ih =>
    intro st acc lp res lpres st1 h
    cases hd : delete_namespaced_pod p.1 ns st with
    | error e => simp [deletePodsLoop, hd] at h
    | ok stA =>
      rw [show deletePodsLoop ns (p :: rest) st acc lp
          = deletePodsLoop ns rest stA
              (acc ++ [{ container_id := p.2, container_network := ns, status := "deleted pod" }])
              (some p) from by simp [deletePodsLoop, hd]] at h
      obtain ⟨hmem, hlast⟩ := ih stA _ (some p) res lpres st1 h
      refine ⟨?_, by simpa [lastChoice] using hlast⟩
      intro e he
      rcases hmem e he with hacc | hstat
      · rcases List.mem_append.mp hacc with h1 | h2
        · exact Or.inl h1
        · simp at h2
          subst h2
          exact Or.inr rfl
      · exact Or.inr hstat

theorem deleteServicesLoop_ok_shape (ns : String) (toDel : List (String × String)) :
    ∀ (st : KState) (acc : List OpEntry) (lp : Option (String × String))
      (res : List OpEntry) (st1 : KState),
    deleteServicesLoop ns toDel st acc lp = (.ok res, st1) →
    ∀ e ∈ res, e ∈ acc ∨ (e.status = "deleted service" ∧ some e.container_id = lp.map Prod.snd) := by
  induction toDel with
  | nil =>
    intro st acc lp res st1 h
    simp only [deleteServicesLoop, Prod.mk.injEq, Except.ok.injEq] at h
    obtain ⟨h1, _⟩ := h
    subst h1
    exact fun e he => Or.inl he
  | cons s rest ih =>
    intro st acc lp res st1 h
    cases hd : delete_namespaced_service s.1 ns st with
    | error e => simp [deleteServicesLoop, hd] at h
    | ok stA =>
      cases lp with
      | none => simp [deleteServicesLoop, hd] at h
      | some lpv =>
        rw [show deleteServicesLoop ns (s :: rest) st acc (some lpv)
            = deleteServicesLoop ns rest stA
                (acc ++ [{ container_id := lpv.2, container_network := ns, status := "deleted service" }])
                (some lpv) from by simp [deleteServicesLoop, hd]] at h
        intro e he
        rcases ih stA _ (some lpv) res st1 h e he with hacc | hstat
        · rcases List.mem_append.mp hacc with h1 | h2
          · exact Or.inl h1
          · simp at h2
            subst h2
            exact Or.inr ⟨rfl, rfl⟩
        · exact Or.inr hstat

theorem deleteServicesLoop_none_err (ns : String) (s : String × String)
    (rest : List (String × String)) (st : KState) (acc : List OpEntry) :
    isErr (deleteServicesLoop ns (s :: rest) st acc none).1 = true := by
  cases hd : delete_namespaced_service s.1 ns st <;> simp [deleteServicesLoop, hd, isErr]

theorem lastChoice_of_some {α : Type} (l : List α) :
    ∀ a : α, ∃ b, lastChoice l (some a) = some b := by
  induction l with
  | nil => intro a; exact ⟨a, rfl⟩
  | cons c rest ih => intro a; simpa [lastChoice] using ih c

theorem kStartLoop_shape (st : KState) (ns : String) (ids : List String) :
    ∀ (acc : List StartEntry), ∀ e ∈ kStartLoop st ns ids acc,
      e ∈ acc ∨ (e.container_id ∈ ids ∧
        (e.container_id ∈ nsPodUids st ns ∨ e.container_id ∈ nsSvcUids st ns)) := by
  induction ids with
  | nil => intro acc e he; exact Or.inl (by simpa [kStartLoop] using he)
  | cons cid rest ih =>
    intro acc e he
    simp only [kStartLoop] at he
    by_cases h1 : cid ∈ nsPodUids st ns
    · rw [if_pos h1] at he
      rcases ih _ e he with hacc | ⟨hin, hk⟩
      · rcases List.mem_append.mp hacc with ha | hb
        · exact Or.inl ha
        · simp at hb
          subst hb
          exact Or.inr ⟨List.mem_cons_self cid rest, Or.inl h1⟩
      · exact Or.inr ⟨List.mem_cons_of_mem cid hin, hk⟩
    · by_cases h2 : cid ∈ nsSvcUids st ns
      · rw [if_neg h1, if_pos h2] at he
        rcases ih _ e he with hacc | ⟨hin, hk⟩
        · rcases List.mem_append.mp hacc with ha | hb
          · exact Or.inl ha
          · simp at hb
            subst hb
            exact Or.inr ⟨List.mem_cons_self cid rest, Or.inr h2⟩
        · exact Or.inr ⟨List.mem_cons_of_mem cid hin, hk⟩
      · rw [if_neg h1, if_neg h2] at he
        rcases ih _ e he with hacc | ⟨hin, hk⟩
        · exact Or.inl hacc
        · exact Or.inr ⟨List.mem_cons_of_mem cid hin, hk⟩

theorem create_network_ok (n : String) (st : DockerState) :
    ∃ st1, DockerContainerManager.create_network true n st = (.ok (), st1) ∧
      st1.containers = st.containers ∧ st1.nextId = st.nextId := by
  unfold DockerContainerManager.create_network check_client
  by_cases h : (st.networks.filter (fun m => decide (m = n))).isEmpty <;> simp [h]

theorem create_namespace_ok (n : String) (st : KState) :
    ∃ st1, KubernetesContainerManager.create_namespace true n st = (.ok (), st1) ∧
      st1.pods = st.pods ∧ st1.services = st.services ∧ st1.nextUid = st.nextUid ∧
      st1.endpoints = st.endpoints ∧ st1.failEndpoints = st.failEndpoints := by
  unfold KubernetesContainerManager.create_namespace check_client
  by_cases h : st.namespaces.any (fun m => decide (m = n)) <;> simp [h]

/-- C1: for the publish map `{"80/tcp": 8080, "443/tcp": 8443}` (two unique
keys), Docker `create_container` does not return two entries sharing one
container id — it raises a `ValueError`, because the result comprehension
iterates the dict's keys and tuple-unpacks each key string; Kubernetes
`create_container` does return exactly two entries with two distinct
Service UIDs, one per created Service. -/
theorem C1_create_result_cardinality :
    (DockerContainerManager.create_container true
        ⟨"img", "app", "netx", [("80/tcp", 8080), ("443/tcp", 8443)], []⟩ ⟨[], [], 0⟩).1
      = .error (.valueError "values to unpack mismatch for key 80/tcp") ∧
    (KubernetesContainerManager.create_container true
        ⟨"img", "app", "nsx", [("80/tcp", 8080), ("443/tcp", 8443)], []⟩
        ⟨[], [], [], [], [], 0, false⟩).1
      = .ok [⟨"uid-1", "nsx", .int 8080⟩, ⟨"uid-2", "nsx", .int 8443⟩] ∧
    ("uid-1" : String) ≠ "uid-2" := by decide

/-- C3: Docker `create_container` followed by `delete_container` on the
returned id reports one `"deleted"`-tagged entry, but the container is
still present in the daemon's state (merely stopped): `delete_container`
calls `container.stop()` and never removes the container. -/
theorem C3_docker_delete_only_stops :
    (DockerContainerManager.create_container true ⟨"img", "app3", "net3", [], []⟩ ⟨[], [], 0⟩).1
      = .ok [{ container_id := "ctr-0", container_network := "net3", container_port := .nil }] ∧
    (DockerContainerManager.delete_container true ["ctr-0"] "net3"
        (DockerContainerManager.create_container true ⟨"img", "app3", "net3", [], []⟩ ⟨[], [], 0⟩).2).1
      = .ok [{ container_id := "ctr-0", container_network := "net3", status := "deleted" }] ∧
    ((DockerContainerManager.delete_container true ["ctr-0"] "net3"
        (DockerContainerManager.create_container true ⟨"img", "app3", "net3", [], []⟩ ⟨[], [], 0⟩).2).2.containers.map
      (fun c => (c.id, c.running))) = [("ctr-0", false)] := by decide

/-- C4: with the backend client unresolved (`client is None`), no
operation can signal the distinct `ContainerClientNotResolved` failure,
because `src/exceptions.py` defines no such class: the four Docker
operations and Kubernetes create do short-circuit in `check_client`
before touching the backend, but its raise statement itself fails with a
bare `AttributeError` on the missing module attribute; Kubernetes start,
stop and delete never call `check_client` at all and fail with the
`AttributeError` from dereferencing the `None` client.  No operation
mutates backend state in either case, and none yields a structured
"client not resolved" failure. -/
theorem C4_client_none_behavior (self : ContainerSpec) (ids : List String) (net : String)
    (dst : DockerState) (kst : KState) :
    DockerContainerManager.create_container false self dst
      = (.error (.pyError attr_missing_exc_msg), dst) ∧
    DockerContainerManager.start_container false ids net dst
      = (.error (.pyError attr_missing_exc_msg), dst) ∧
    DockerContainerManager.stop_container false ids net dst
      = (.error (.pyError attr_missing_exc_msg), dst) ∧
    DockerContainerManager.delete_container false ids net dst
      = (.error (.pyError attr_missing_exc_msg), dst) ∧
    KubernetesContainerManager.create_container false self kst
      = (.error (.pyError attr_missing_exc_msg), kst) ∧
    KubernetesContainerManager.start_container false ids net kst
      = (.error (.pyError attr_on_none_msg), kst) ∧
    KubernetesContainerManager.stop_container false ids net kst
      = (.error (.pyError attr_on_none_msg), kst) ∧
    KubernetesContainerManager.delete_container false ids net kst
      = (.error (.pyError attr_on_none_msg), kst) :=
  ⟨rfl, rfl, rfl, rfl, rfl, rfl, rfl, rfl⟩

/-- C6: Kubernetes `stop_container` is observationally equivalent to
`delete_container` on the same arguments: same returned value and same
resulting backend state, for every client state, id list, namespace and
cluster state. -/
theorem C6_stop_equals_delete (clientOk : Bool) (ids : List String) (ns : String)
    (kst : KState) :
    KubernetesContainerManager.stop_container clientOk ids ns kst
      = KubernetesContainerManager.delete_container clientOk ids ns kst := by
  unfold KubernetesContainerManager.stop_container
  rcases KubernetesContainerManager.delete_container clientOk ids ns kst with ⟨r, st1⟩
  cases r <;> rfl

/-- C7: for `publishMap = {"80/tcp": 8080, "443/tcp": 8443}`, Kubernetes
`extract_publish_information` yields the unique target ports `{80, 443}`
and two service-info entries; `create_container` creates exactly two
LoadBalancer Services named `app7-service-0` and `app7-service-1` in map
order, and returns two entries with ports 8080 and 8443 respectively. -/
theorem C7_example_scenario :
    KubernetesContainerManager.extract_publish_information [("80/tcp", 8080), ("443/tcp", 8443)]
      = .ok ([80, 443], [⟨8080, 80, "TCP"⟩, ⟨8443, 443, "TCP"⟩]) ∧
    (KubernetesContainerManager.create_container true
        ⟨"img", "app7", "ns7", [("80/tcp", 8080), ("443/tcp", 8443)], []⟩
        ⟨[], [], [], [], [], 0, false⟩).1
      = .ok [⟨"uid-1", "ns7", .int 8080⟩, ⟨"uid-2", "ns7", .int 8443⟩] ∧
    ((KubernetesContainerManager.create_container true
        ⟨"img", "app7", "ns7", [("80/tcp", 8080), ("443/tcp", 8443)], []⟩
        ⟨[], [], [], [], [], 0, false⟩).2.services.map (fun s => (s.name, s.svcType)))
      = [("app7-service-0", "LoadBalancer"), ("app7-service-1", "LoadBalancer")] := by decide

/-- C2 counterexample: deleting a service id whose Endpoints back no pods
removes the service from the backend but produces no result entry at all —
the call raises the `pod_to_delete` `NameError` instead of returning one
`"deleted service"`-tagged entry for the deleted resource. -/
theorem C2_counterexample_service_without_pods :
    (KubernetesContainerManager.delete_container true ["uid-s"] "ns2"
        ⟨["ns2"], [], [], [⟨"uid-s", "s2", "ns2", "cip", "app", 8080, 80, "TCP", "LoadBalancer"⟩],
         [⟨"s2", "ns2", []⟩], 5, false⟩).1
      = .error (.pyError name_error_msg) ∧
    (KubernetesContainerManager.delete_container true ["uid-s"] "ns2"
        ⟨["ns2"], [], [], [⟨"uid-s", "s2", "ns2", "cip", "app", 8080, 80, "TCP", "LoadBalancer"⟩],
         [⟨"s2", "ns2", []⟩], 5, false⟩).2.services = [] := by decide

/-- C5 counterexample: with the Endpoints listing failing at the transport
level (`failEndpoints`), deleting a pod id and a service id in one call
succeeds with an ordinary result — the listing failure inside
`get_pods_for_service` is swallowed — and the service's backing pod `q`
(reachable only through the Endpoints object) is left alive. -/
theorem C5_counterexample_swallowed_backend_failure :
    (KubernetesContainerManager.delete_container true ["uid-p", "uid-s"] "ns5"
        ⟨["ns5"], [], [⟨"uid-p", "p5", "ns5", "pip", "img", []⟩, ⟨"uid-q", "q5", "ns5", "qip", "img", []⟩],
         [⟨"uid-s", "s5", "ns5", "cip", "app", 8080, 80, "TCP", "LoadBalancer"⟩],
         [⟨"s5", "ns5", [["p5", "q5"]]⟩], 9, true⟩).1
      = .ok [⟨"uid-p", "ns5", "deleted pod"⟩, ⟨"uid-p", "ns5", "deleted service"⟩] ∧
    ((KubernetesContainerManager.delete_container true ["uid-p", "uid-s"] "ns5"
        ⟨["ns5"], [], [⟨"uid-p", "p5", "ns5", "pip", "img", []⟩, ⟨"uid-q", "q5", "ns5", "qip", "img", []⟩],
         [⟨"uid-s", "s5", "ns5", "cip", "app", 8080, 80, "TCP", "LoadBalancer"⟩],
         [⟨"s5", "ns5", [["p5", "q5"]]⟩], 9, true⟩).2.pods.map KPod.name) = ["q5"] := by decide

theorem create_network_mem (n : String) (st : DockerState) (h : n ∈ st.networks) :
    DockerContainerManager.create_network true n st = (.ok (), st) := by
  have hmem : n ∈ st.networks.filter (fun m => decide (m = n)) :=
    List.mem_filter.mpr ⟨h, by simp⟩
  unfold DockerContainerManager.create_network check_client
  cases hf : st.networks.filter (fun m => decide (m = n)) with
  | nil => rw [hf] at hmem; cases hmem
  | cons a l => simp [hf]

theorem create_network_new (n : String) (st : DockerState) (h : n ∉ st.networks) :
    DockerContainerManager.create_network true n st
      = (.ok (), { st with networks := st.networks ++ [n] }) := by
  have hf : st.networks.filter (fun m => decide (m = n)) = [] := by
    rw [List.filter_eq_nil_iff]
    intro a ha
    simp
    intro heq
    exact h (heq ▸ ha)
  unfold DockerContainerManager.create_network check_client
  simp [hf]

theorem create_namespace_mem (n : String) (st : KState) (h : n ∈ st.namespaces) :
    KubernetesContainerManager.create_namespace true n st = (.ok (), st) := by
  have hany : st.namespaces.any (fun m => decide (m = n)) = true := by
    rw [List.any_eq_true]
    exact ⟨n, h, by simp⟩
  unfold KubernetesContainerManager.create_namespace check_client
  simp [hany]

theorem create_namespace_new (n : String) (st : KState) (h : n ∉ st.namespaces) :
    KubernetesContainerManager.create_namespace true n st
      = (.ok (), { st with namespaces := st.namespaces ++ [n],
                           netpols := st.netpols ++ [(n, "deny-from-other-namespaces")] }) := by
  have hany : st.namespaces.any (fun m => decide (m = n)) = false := by
    rw [Bool.eq_false_iff]
    intro hc
    rw [List.any_eq_true] at hc
    obtain ⟨a, ha, hpa⟩ := hc
    simp at hpa
    exact h (hpa ▸ ha)
  unfold KubernetesContainerManager.create_namespace check_client
  simp [hany]

/-- C9: boundary provisioning is idempotent on both backends: starting
from a daemon / cluster holding at most one boundary of that name, the
first `create_network` / `create_namespace` call succeeds and leaves
exactly one boundary of that name, and the second call performs no
creation, changes nothing, and raises no error. -/
theorem C9_boundary_idempotent (n : String) (dst : DockerState) (kst : KState)
    (hd : dst.networks.count n ≤ 1) (hk : kst.namespaces.count n ≤ 1) :
    boundaryIdempotent n dst kst := by
  have dockerPart : (DockerContainerManager.create_network true n dst).1 = .ok () ∧
      DockerContainerManager.create_network true n
          (DockerContainerManager.create_network true n dst).2
        = (.ok (), (DockerContainerManager.create_network true n dst).2) ∧
      ((DockerContainerManager.create_network true n dst).2).networks.count n = 1 := by
    by_cases hmem : n ∈ dst.networks
    · have h1 := create_network_mem n dst hmem
      have hcnt : dst.networks.count n = 1 := by
        have hpos : dst.networks.count n ≠ 0 := fun h0 => (List.count_eq_zero.mp h0) hmem
        omega
      rw [h1]
      exact ⟨rfl, create_network_mem n dst hmem, hcnt⟩
    · have h1 := create_network_new n dst hmem
      rw [h1]
      refine ⟨rfl, ?_, ?_⟩
      · exact create_network_mem n _ (by simp)
      · simp [List.count_append, List.count_eq_zero.mpr hmem]
  have k8sPart : (KubernetesContainerManager.create_namespace true n kst).1 = .ok () ∧
      KubernetesContainerManager.create_namespace true n
          (KubernetesContainerManager.create_namespace true n kst).2
        = (.ok (), (KubernetesContainerManager.create_namespace true n kst).2) ∧
      ((KubernetesContainerManager.create_namespace true n kst).2).namespaces.count n = 1 := by
    by_cases hmem : n ∈ kst.namespaces
    · have h1 := create_namespace_mem n kst hmem
      have hcnt : kst.namespaces.count n = 1 := by
        have hpos : kst.namespaces.count n ≠ 0 := fun h0 => (List.count_eq_zero.mp h0) hmem
        omega
      rw [h1]
      exact ⟨rfl, create_namespace_mem n kst hmem, hcnt⟩
    · have h1 := create_namespace_new n kst hmem
      rw [h1]
      refine ⟨rfl, ?_, ?_⟩
      · exact create_namespace_mem n _ (by simp)
      · simp [List.count_append, List.count_eq_zero.mpr hmem]
  exact ⟨dockerPart.1, dockerPart.2.1, dockerPart.2.2, k8sPart.1, k8sPart.2.1, k8sPart.2.2⟩

/-- C9 witness: idempotence evaluated on a daemon with one unrelated
network and an empty cluster. -/
theorem C9_boundary_idempotent_witness :
    boundaryIdempotent "b9" ⟨["other"], [], 0⟩ ⟨[], [], [], [], [], 0, false⟩ :=
  C9_boundary_idempotent "b9" ⟨["other"], [], 0⟩ ⟨[], [], [], [], [], 0, false⟩
    (by decide) (by decide)

theorem docker_create_empty (self : ContainerSpec) (st st1 : DockerState)
    (hd : self.publish_information = [])
    (hnet : DockerContainerManager.create_network true
        (DockerContainerManager.resolve_network self.container_network) st = (.ok (), st1))
    (hany : st1.containers.any (fun c => decide (c.name = self.container_name)) = false) :
    (DockerContainerManager.create_container true self st).1
      = .ok [{ container_id := freshContainerId st1,
               container_network := DockerContainerManager.resolve_network self.container_network,
               container_port := PValue.nil }] := by
  have hcc : check_client true = (.ok () : Except CErr Unit) := rfl
  simp only [DockerContainerManager.create_container, hcc]
  rw [hnet]
  simp [hany, hd]

theorem k8s_create_empty (self : ContainerSpec) (st st1 : KState)
    (hk : self.publish_information = [])
    (hns : KubernetesContainerManager.create_namespace true
        (KubernetesContainerManager.resolve_namespace self.container_network) st = (.ok (), st1))
    (hkp : ¬ podExists st1 (KubernetesContainerManager.resolve_namespace self.container_network)
        self.container_name) :
    KubernetesContainerManager.create_container true self st
      = (.ok [{ container_id := freshUid st1,
                container_network := KubernetesContainerManager.resolve_namespace self.container_network,
                container_port := PValue.nil }],
         { st1 with
             pods := st1.pods ++ [{ uid := freshUid st1, name := self.container_name,
                                    ns := KubernetesContainerManager.resolve_namespace self.container_network,
                                    ip := "pip-" ++ toString st1.nextUid, image := self.image_name,
                                    ports := [] }],
             nextUid := st1.nextUid + 1 }) := by
  have hcc : check_client true = (.ok () : Except CErr Unit) := rfl
  have hex : KubernetesContainerManager.extract_publish_information self.publish_information
      = .ok ([], []) := by rw [hk]; rfl
  simp only [KubernetesContainerManager.create_container, hcc, hex]
  rw [hns]
  simp [hkp, KubernetesContainerManager.create_services_for_app, createServicesLoop, hcc]

/-- C8: on an empty publish map (and a backend that accepts the chosen
names), create returns exactly one result entry with a null port on both
backends; the Kubernetes entry carries the created Pod's UID. -/
theorem C8_empty_publish_single_null_entry (self kself : ContainerSpec)
    (dst : DockerState) (kst : KState)
    (hd : self.publish_information = [])
    (hn : dst.containers.any (fun c => decide (c.name = self.container_name)) = false)
    (hk : kself.publish_information = [])
    (hkp : ¬ podExists kst (KubernetesContainerManager.resolve_namespace kself.container_network)
        kself.container_name) :
    emptyPublishResult self kself dst kst := by
  constructor
  · obtain ⟨st1, h1, hc, hnid⟩ := create_network_ok
      (DockerContainerManager.resolve_network self.container_network) dst
    exact ⟨freshContainerId st1, docker_create_empty self dst st1 hd h1 (by rw [hc]; exact hn)⟩
  · obtain ⟨st1, h1, hpods, hsvcs, hnu, hfe⟩ := create_namespace_ok
      (KubernetesContainerManager.resolve_namespace kself.container_network) kst
    have hkp1 : ¬ podExists st1
        (KubernetesContainerManager.resolve_namespace kself.container_network)
        kself.container_name := by
      intro hx
      exact hkp ((podExists_congr st1 kst hpods _ _).mp hx)
    have hcreate := k8s_create_empty kself kst st1 hk h1 hkp1
    refine ⟨freshUid st1, ?_, ?_⟩
    · rw [hcreate]
    · rw [hcreate]
      refine ⟨{ uid := freshUid st1, name := kself.container_name,
                 ns := KubernetesContainerManager.resolve_namespace kself.container_network,
                 ip := "pip-" ++ toString st1.nextUid, image := kself.image_name, ports := [] },
              ?_, rfl, rfl⟩
      simp

/-- C8 witness: both creates evaluated on empty backends with the name
`w8` and no published ports. -/
theorem C8_empty_publish_single_null_entry_witness :
    emptyPublishResult ⟨"img", "w8", "net8", [], []⟩ ⟨"img", "w8", "ns8", [], []⟩
      ⟨[], [], 0⟩ ⟨[], [], [], [], [], 0, false⟩ :=
  C8_empty_publish_single_null_entry ⟨"img", "w8", "net8", [], []⟩ ⟨"img", "w8", "ns8", [], []⟩
    ⟨[], [], 0⟩ ⟨[], [], [], [], [], 0, false⟩ rfl (by decide) rfl (by decide)

/-- C5 (amended): failures surface to the caller with two lenient
exceptions rather than one — Kubernetes start omits unknown ids without
error, and `get_pods_for_service` swallows any Endpoints-listing failure
into an empty pod list; Docker stop and delete still fail fast on an
unknown id. -/
theorem C5_propagation_amended (sname nsx : String) (stx : KState) (ids : List String)
    (nsy : String) (sty : KState) (dst : DockerState) (net cid : String)
    (restIds : List String)
    (hfail : stx.failEndpoints = true)
    (hunknown : ∀ c ∈ dst.containers, c.id ≠ cid) :
    propagationSpec sname nsx stx ids nsy sty dst net cid restIds := by
  have hg : dockerGet dst cid = .error (.dockerError ("404 No such container " ++ cid)) := by
    unfold dockerGet
    have hf : dst.containers.find? (fun c => decide (c.id = cid)) = none :=
      List.find?_eq_none.mpr (fun c hc => by simpa using hunknown c hc)
    rw [hf]
  refine ⟨?_, ?_, ?_, ?_⟩
  · simp [KubernetesContainerManager.get_pods_for_service, hfail]
  · refine ⟨kStartLoop sty nsy ids [], rfl, ?_⟩
    intro e he
    rcases kStartLoop_shape sty nsy ids [] e he with h0 | hgood
    · cases h0
    · exact hgood
  · simp [DockerContainerManager.stop_container, check_client, dockerStopLoop, hg, isErr]
  · simp [DockerContainerManager.delete_container, check_client, dockerStopLoop, hg, isErr]

/-- C5 witness: the swallowing, the lenient start and the Docker
fail-fast, each at small concrete inputs. -/
theorem C5_propagation_amended_witness :
    propagationSpec "s5w" "n5w" ⟨[], [], [], [], [], 0, true⟩ ["a"] "n5y"
      ⟨[], [], [], [], [], 0, false⟩ ⟨[], [], 0⟩ "d5" "c5" [] :=
  C5_propagation_amended "s5w" "n5w" ⟨[], [], [], [], [], 0, true⟩ ["a"] "n5y"
    ⟨[], [], [], [], [], 0, false⟩ ⟨[], [], 0⟩ "d5" "c5" [] rfl (by decide)

theorem delete_container_unfold (ids : List String) (ns : String) (st : KState) :
    KubernetesContainerManager.delete_container true ids ns st
      = (match deletePodsLoop ns (resolveDeletions true ids ns st).1 st [] none with
         | (.error e, st1) => ((.error e : Except CErr (List OpEntry)), st1)
         | (.ok podsDone, st1) =>
             deleteServicesLoop ns (resolveDeletions true ids ns st).2 st1 podsDone.1 podsDone.2) := rfl

/-- C10: in Kubernetes delete, every `"deleted service"` result entry's
`container_id` is `pod_to_delete[1]`, the leftover pod-loop variable (the
id recorded with the last deleted pod); and a call that queues at least
one service but no pods raises an error instead of returning a result
list. -/
theorem C10_stale_pod_variable (ids : List String) (ns : String) (st : KState) :
    stalePodVarSpec ids ns st := by
  constructor
  · intro h1 h2
    have hdel0 : KubernetesContainerManager.delete_container true ids ns st
        = deleteServicesLoop ns (resolveDeletions true ids ns st).2 st [] none := by
      rw [delete_container_unfold, h1]
      simp [deletePodsLoop]
    cases hx : (resolveDeletions true ids ns st).2 with
    | nil => exact absurd hx h2
    | cons s rest =>
      rw [hdel0, hx]
      exact deleteServicesLoop_none_err ns s rest st []
  · intro res hres e he hstat
    rcases hp : deletePodsLoop ns (resolveDeletions true ids ns st).1 st [] none with ⟨r, stP⟩
    cases r with
    | error err =>
      have herr : (KubernetesContainerManager.delete_container true ids ns st).1 = .error err := by
        rw [delete_container_unfold, hp]
      rw [herr] at hres
      cases hres
    | ok podsDone =>
      have hd2 : KubernetesContainerManager.delete_container true ids ns st
          = deleteServicesLoop ns (resolveDeletions true ids ns st).2 stP podsDone.1 podsDone.2 := by
        rw [delete_container_unfold, hp]
      rw [hd2] at hres
      rcases hq : deleteServicesLoop ns (resolveDeletions true ids ns st).2 stP
          podsDone.1 podsDone.2 with ⟨rq, stS⟩
      rw [hq] at hres
      cases rq with
      | error err2 => cases hres
      | ok resq =>
        have hres2 : resq = res := by simpa using hres
        obtain ⟨hmem, hlast⟩ :=
          deletePodsLoop_ok_shape ns (resolveDeletions true ids ns st).1 st [] none
            podsDone.1 podsDone.2 stP hp
        have hsvc := deleteServicesLoop_ok_shape ns (resolveDeletions true ids ns st).2 stP
          podsDone.1 podsDone.2 resq stS hq
        rcases hsvc e (hres2 ▸ he) with hacc | ⟨_, hid⟩
        · rcases hmem e hacc with h0 | hps
          · cases h0
          · exact absurd (hps.symm.trans hstat) (by decide)
        · rw [hid, hlast]

/-- C10 witness: a service queued with zero pods makes the call raise. -/
theorem C10_stale_pod_variable_witness :
    isErr (KubernetesContainerManager.delete_container true ["uid-s"] "nsw"
        ⟨["nsw"], [], [], [⟨"uid-s", "sw", "nsw", "cip", "app", 8080, 80, "TCP", "LoadBalancer"⟩],
         [⟨"sw", "nsw", []⟩], 7, false⟩).1 = true :=
  (C10_stale_pod_variable ["uid-s"] "nsw"
      ⟨["nsw"], [], [], [⟨"uid-s", "sw", "nsw", "cip", "app", 8080, 80, "TCP", "LoadBalancer"⟩],
       [⟨"sw", "nsw", []⟩], 7, false⟩).1 (by decide) (by decide)

/-- C2 (amended): Kubernetes delete resolves every id against the pod-UID
and service-UID sets, queues each service id's backing pods via its
Endpoints, deletes all queued pods before any queued service (one tagged
entry per deleted resource), and removes the queued resources from the
backend — provided the queued names exist, are distinct, and at least one
pod is queued whenever a service is (otherwise the call deletes the
services but raises before returning any entries). -/
theorem C2_delete_cascade_amended (ids : List String) (ns : String) (st : KState)
    (hpn : (((resolveDeletions true ids ns st).1).map Prod.fst).Nodup)
    (hpe : ∀ pr ∈ (resolveDeletions true ids ns st).1, podExists st ns pr.1)
    (hsn : (((resolveDeletions true ids ns st).2).map Prod.fst).Nodup)
    (hse : ∀ sr ∈ (resolveDeletions true ids ns st).2, svcExists st ns sr.1)
    (hnz : (resolveDeletions true ids ns st).1 ≠ [] ∨ (resolveDeletions true ids ns st).2 = []) :
    deleteCascadeSpec ids ns st := by
  refine ⟨fun cid hc h1 h2 => resolveLoop_cascade true ns st ids [] [] cid hc h1 h2, ?_⟩
  obtain ⟨stP, heqP, hPgone, hPmono, hPsvcs, hPns, hPep, hPnp, hPnu, hPfe⟩ :=
    deletePodsLoop_spec ns (resolveDeletions true ids ns st).1 st [] none hpn hpe
  have hdel : KubernetesContainerManager.delete_container true ids ns st
      = deleteServicesLoop ns (resolveDeletions true ids ns st).2 stP
          ((resolveDeletions true ids ns st).1.map
            (fun p => { container_id := p.2, container_network := ns, status := "deleted pod" }))
          (lastChoice (resolveDeletions true ids ns st).1 none) := by
    rw [delete_container_unfold, heqP]
    simp
  rcases hnz with hne | hz
  · obtain ⟨p0, rest0, hcons⟩ : ∃ a l, (resolveDeletions true ids ns st).1 = a :: l := by
      cases hx : (resolveDeletions true ids ns st).1 with
      | nil => exact absurd hx hne
      | cons a l => exact ⟨a, l, rfl⟩
    obtain ⟨lpv, hlpv⟩ : ∃ b, lastChoice (resolveDeletions true ids ns st).1 none = some b := by
      rw [hcons]
      exact lastChoice_of_some rest0 p0
    have hse2 : ∀ sr ∈ (resolveDeletions true ids ns st).2, svcExists stP ns sr.1 := by
      intro sr hsr
      exact (svcExists_congr stP st hPsvcs ns sr.1).mpr (hse sr hsr)
    obtain ⟨stS, heqS, hSgone, hSmono, hSpods, hSns, hSep, hSnp, hSnu, hSfe⟩ :=
      deleteServicesLoop_spec ns (resolveDeletions true ids ns st).2 stP
        ((resolveDeletions true ids ns st).1.map
          (fun p => { container_id := p.2, container_network := ns, status := "deleted pod" }))
        lpv hsn hse2
    refine ⟨(resolveDeletions true ids ns st).1.map
        (fun p => { container_id := p.2, container_network := ns, status := "deleted pod" })
      ++ (resolveDeletions true ids ns st).2.map
        (fun _s => { container_id := lpv.2, container_network := ns, status := "deleted service" }),
      stS, ?_, ?_, ?_, ?_⟩
    · rw [hdel, hlpv, heqS]
    · rw [hlpv]
      simp
    · intro pr hpr hc
      exact hPgone pr hpr ((podExists_congr stS stP hSpods ns pr.1).mp hc)
    · intro sr hsr
      exact hSgone sr hsr
  · refine ⟨(resolveDeletions true ids ns st).1.map
        (fun p => { container_id := p.2, container_network := ns, status := "deleted pod" }),
      stP, ?_, ?_, ?_, ?_⟩
    · rw [hdel, hz]
      rfl
    · rw [hz]
      simp
    · exact hPgone
    · intro sr hsr
      rw [hz] at hsr
      cases hsr

/-- C2 witness: deleting a service id whose Endpoints back one pod deletes
the pod first and then the service, one tagged entry each, leaving neither
behind. -/
theorem C2_delete_cascade_amended_witness :
    deleteCascadeSpec ["uid-s"] "nsc"
      ⟨["nsc"], [], [⟨"uid-p", "pc", "nsc", "pip", "img", []⟩],
       [⟨"uid-s", "sc", "nsc", "cip", "app", 8080, 80, "TCP", "LoadBalancer"⟩],
       [⟨"sc", "nsc", [["pc"]]⟩], 3, false⟩ :=
  C2_delete_cascade_amended ["uid-s"] "nsc"
    ⟨["nsc"], [], [⟨"uid-p", "pc", "nsc", "pip", "img", []⟩],
     [⟨"uid-s", "sc", "nsc", "cip", "app", 8080, 80, "TCP", "LoadBalancer"⟩],
     [⟨"sc", "nsc", [["pc"]]⟩], 3, false⟩
    (by decide) (by decide) (by decide) (by decide) (by decide)

end RestContainer
